import Mathlib

/-!
Verification development for the chess move evaluator
(`src/packages/chess_evaluator/__main__.py`).

The Python module has three parts:
  * `describe_quality` — a pure threshold classifier from centipawn loss to a
    quality label;
  * `evaluate_llm_move_logic` — parses a SAN move against a FEN position,
    queries the Stockfish engine on the original and on the post-move
    position, and computes a sign-corrected centipawn loss;
  * `main` — the serverless request handler wrapping the above.

The chess library (python-chess) and the engine process are external
collaborators: they are embedded as abstract parameters (`ChessLib`,
`Engine`).  Engine scores are modelled as plain integers (the claims under
study all presuppose that scores are obtained as integers).  Exceptions
raised inside the `try` block are modelled with `Except PyErr`; a malformed
FEN (which `chess.Board(fen)` would reject before anything else runs) is an
external precondition violation and is outside the model.

Besides the report dictionary — the only value the Python function returns —
the Lean embedding of `evaluate_llm_move_logic` also returns two ghost
observations needed to state frame and no-call properties: the list of
queries issued to the engine (position and `multipv` argument of each
`engine.analyse` call, in order) and the final state of the working board.
-/

/-- One analysis info dictionary as produced by the engine: the principal
variation (a list of UCI move strings, `info['pv']`) and the relative score
in centipawns (`info['score'].relative.score()`), modelled as an integer. -/
structure InfoDict where
  pv : List String
  score : Int
deriving DecidableEq

/-- Result of one `engine.analyse` call: python-chess returns a single info
dictionary or a list of them, and the code branches on `isinstance(_, list)`. -/
inductive AnalyseResult where
  | single : InfoDict → AnalyseResult
  | list : List InfoDict → AnalyseResult
deriving DecidableEq

/-- Exceptions that the `try` block distinguishes: `EngineTerminatedError`
has its own handler, every other exception is caught by the generic handler
with its message. -/
inductive PyErr where
  | engineTerminated : PyErr
  | generic : String → PyErr
deriving DecidableEq

/-- The external engine process: `start` models `SimpleEngine.popen_uci`
(which may fail before any query is made), `analyse` models
`engine.analyse` applied to a position (identified by its FEN) with an
optional `multipv` argument (`none` = the argument is not passed). -/
structure Engine where
  start : Except PyErr Unit
  analyse : String → Option Int → Except PyErr AnalyseResult

/-- The external chess library: `parseSan` models `board.parse_san`
(returning the resolved move's UCI string, or `none` when python-chess
raises `ValueError` for a malformed, ambiguous or illegal move), and
`applyMove` models the position transformer realised by `board.push`
followed by `board.fen()`. -/
structure ChessLib where
  parseSan : String → String → Option String
  applyMove : String → String → String

/-- A `chess.Board`: the position it was constructed from plus the stack of
moves pushed onto it (python-chess keeps exactly this move stack). -/
structure Board where
  baseFen : String
  stack : List String
deriving DecidableEq

/-- `board.push(move)`. -/
def Board.push (b : Board) (m : String) : Board :=
  ⟨b.baseFen, b.stack ++ [m]⟩

/-- `board.pop()`: undo the most recent move. -/
def Board.pop (b : Board) : Board :=
  ⟨b.baseFen, b.stack.dropLast⟩

/-- `board.fen()`: the FEN of the current position, obtained by applying the
stacked moves to the base position. -/
def Board.fen (b : Board) (lib : ChessLib) : String :=
  b.stack.foldl lib.applyMove b.baseFen

/-- The result dictionary of `evaluate_llm_move_logic`: every key the
function may set, `none` meaning the key is absent from the dictionary. -/
structure Report where
  stockfish_moves : Option (List String) := none
  stockfish_eval : Option Int := none
  llm_move : Option String := none
  post_move_fen : Option String := none
  llm_eval : Option Int := none
  centipawn_loss : Option Int := none
  move_quality : Option String := none
  llm_color : Option String := none
  error : Option String := none
deriving DecidableEq

/-- `describe_quality` (lines 9-21): sequential `if loss < c: return label`
tests, so an if-then-else chain. -/
def describe_quality (loss : Int) : String :=
  if loss < 20 then "Excellent"
  else if loss < 50 then "Good"
  else if loss < 100 then "Inaccuracy"
  else if loss < 300 then "Mistake"
  else "Blunder"

/-- Helper for `fenFields`: split a character list on runs of spaces,
dropping empty pieces; `acc` holds the current field reversed.  Written by
structural recursion so concrete instances evaluate in the kernel. -/
def splitFieldsAux : List Char → List Char → List String
  | [], acc => if acc.isEmpty then [] else [String.mk acc.reverse]
  | c :: rest, acc =>
    if c = ' ' then
      if acc.isEmpty then splitFieldsAux rest []
      else String.mk acc.reverse :: splitFieldsAux rest []
    else splitFieldsAux rest (c :: acc)

/-- The whitespace-separated fields of a FEN string (Python `fen.split()`
splits on runs of whitespace and drops empty pieces; FEN fields are
separated by plain spaces). -/
def fenFields (fen : String) : List String :=
  splitFieldsAux fen.data []

/-- Line 34: `"white" if fen.split()[1] == "w" else "black"`.  A FEN with
fewer than two fields would already have been rejected by
`chess.Board(fen)`, so the default for a missing field is immaterial. -/
def llmColorOf (fen : String) : String :=
  if (fenFields fen).getD 1 "" = "w" then "white" else "black"

/-- `str(e)` of the caught exception as it appears in the report: the
dedicated `EngineTerminatedError` handler (lines 80-84) and the generic
`except Exception` handler (lines 85-89). -/
def pyErrMessage : PyErr → String
  | .engineTerminated => "Stockfish engine terminated unexpectedly. Check path and permissions."
  | .generic msg => "An error occurred during Stockfish analysis: " ++ msg

/-- The report built by either `except` handler: only `error` and
`llm_color` are set. -/
def engineErrorReport (e : PyErr) (llm_color : String) : Report :=
  { error := some (pyErrMessage e), llm_color := some llm_color }

/-- `info['pv'][0].uci()`: the first move of a principal variation; an empty
(or absent) variation raises `IndexError`, caught by the generic handler. -/
def pvHead (info : InfoDict) : Except PyErr String :=
  match info.pv with
  | [] => .error (.generic "list index out of range")
  | m :: _ => .ok m

/-- Lines 56-70: extraction of `stockfish_top_moves` and
`stockfish_best_score` from the first analysis result.
`.ok none` is the final `else` (empty list while `multipv and top_n > 1`
does not hold): the "unexpected result format" early return.
Note the first branch also applies to an *empty* list when
`multipv and top_n > 1` (an empty list is still an instance of `list`), in
which case `analysis_result[0]` raises `IndexError`. -/
def extractTop (multipv : Bool) (top_n : Int) (res : AnalyseResult) :
    Except PyErr (Option (List String × Int)) :=
  match res with
  | .list infos =>
    if multipv ∧ top_n > 1 then
      match infos.mapM pvHead, infos with
      | .error e, _ => .error e
      | .ok _, [] => .error (.generic "list index out of range")
      | .ok moves, top :: _ => .ok (some (moves, top.score))
    else
      match infos with
      | top :: _ =>
        match pvHead top with
        | .error e => .error e
        | .ok m => .ok (some ([m], top.score))
      | [] => .ok none
  | .single info =>
    match pvHead info with
    | .error e => .error e
    | .ok m => .ok (some ([m], info.score))

/-- Line 77: `llm_result['score'].relative.score()`.  The second `analyse`
call passes no `multipv`, so a list result would make the string indexing
raise `TypeError`, caught by the generic handler. -/
def scoreOfSingle (res : AnalyseResult) : Except PyErr Int :=
  match res with
  | .single info => .ok info.score
  | .list _ => .error (.generic "list indices must be integers or slices, not str")

/-- `evaluate_llm_move_logic` (lines 23-108).  Returns the report dictionary
plus two ghost observations: the list of engine queries issued (FEN and
`multipv` argument of each `engine.analyse` call, in order) and the final
state of the working board. -/
def evaluate_llm_move_logic (lib : ChessLib) (eng : Engine)
    (fen : String) (llm_move_san : String) (top_n : Int) (multipv : Bool) :
    Report × List (String × Option Int) × Board :=
  let board : Board := ⟨fen, []⟩
  let llm_color := llmColorOf fen
  match lib.parseSan fen llm_move_san with
  | none =>
    ({ llm_move := some llm_move_san,
       llm_eval := some 10000,
       centipawn_loss := some 10000,
       move_quality := some "Illegal",
       llm_color := some llm_color,
       error := some "Illegal move format or invalid move." }, [], board)
  | some llm_move =>
    let llm_move_uci := llm_move
    match eng.start with
    | .error e => (engineErrorReport e llm_color, [], board)
    | .ok _ =>
      match eng.analyse fen (some top_n) with
      | .error e => (engineErrorReport e llm_color, [(fen, some top_n)], board)
      | .ok analysis_result =>
        match extractTop multipv top_n analysis_result with
        | .error e => (engineErrorReport e llm_color, [(fen, some top_n)], board)
        | .ok none =>
          ({ error := some "Stockfish analysis returned unexpected result format.",
             llm_color := some llm_color }, [(fen, some top_n)], board)
        | .ok (some (stockfish_top_moves, stockfish_best_score)) =>
          let board1 := board.push llm_move
          let post_move_fen := board1.fen lib
          match eng.analyse post_move_fen none with
          | .error e =>
            (engineErrorReport e llm_color,
             [(fen, some top_n), (post_move_fen, none)], board1)
          | .ok llm_result =>
            match scoreOfSingle llm_result with
            | .error e =>
              (engineErrorReport e llm_color,
               [(fen, some top_n), (post_move_fen, none)], board1)
            | .ok llm_score =>
              let board2 := board1.pop
              let centipawn_loss :=
                if llm_color = "white" then stockfish_best_score - llm_score
                else llm_score - stockfish_best_score
              let move_quality := describe_quality centipawn_loss
              ({ stockfish_moves := some stockfish_top_moves,
                 stockfish_eval := some stockfish_best_score,
                 llm_move := some llm_move_uci,
                 post_move_fen := some post_move_fen,
                 llm_eval := some llm_score,
                 centipawn_loss := some centipawn_loss,
                 move_quality := some move_quality,
                 llm_color := some llm_color,
                 error := none },
               [(fen, some top_n), (post_move_fen, none)], board2)

/-- The request event dictionary: each field is `event.get(key)`, `none`
meaning the key is absent. -/
structure Event where
  fen : Option String := none
  llm_move_san : Option String := none
  top_n : Option Int := none
  multipv : Option Bool := none
deriving DecidableEq

/-- Python truthiness of an optional string: `None` and `""` are falsy. -/
def pyTruthy : Option String → Bool
  | none => false
  | some s => s != ""

/-- The handler's response: status code and body. -/
structure HttpResponse where
  statusCode : Int
  body : Report
deriving DecidableEq

/-- The fixed 400 message (line 126). -/
def missingParamsMessage : String :=
  "Missing required parameters: \x27fen\x27 and \x27llm_move_san\x27 must be provided."

/-- `main` (lines 110-144): the request handler.  The 400 body
`{"error": msg}` is a `Report` with only `error` set; the `in`-test on line
135 is key membership of `"error"` in the result dictionary. -/
def main_handler (lib : ChessLib) (eng : Engine) (event : Event) : HttpResponse :=
  let fen := event.fen
  let llm_move_san := event.llm_move_san
  let top_n := event.top_n.getD 3
  let multipv := event.multipv.getD false
  if !pyTruthy fen || !pyTruthy llm_move_san then
    { statusCode := 400, body := { error := some missingParamsMessage } }
  else
    let result := (evaluate_llm_move_logic lib eng (fen.getD "") (llm_move_san.getD "") top_n multipv).1
    if result.error.isSome then
      { statusCode := 500, body := result }
    else
      { statusCode := 200, body := result }

/-- A fixed position string whose second field is "w" (white to move); the
chess library is abstract, so only the side-to-move field matters here. -/
def testFen : String := "8/8 w - - 0 1"

/-- A fixed position string whose second field is "b" (black to move). -/
def testFenBlack : String := "8/8 b - - 0 1"

/-- A concrete chess library used to instantiate universally quantified
theorems: it resolves the SAN text "e4" to the UCI move "e2e4" and applies
moves by tagging the position string. -/
def testLib : ChessLib :=
  { parseSan := fun _ s => if s = "e4" then some "e2e4" else none,
    applyMove := fun f m => f ++ "/" ++ m }

/-- A concrete chess library that rejects every move text. -/
def testRejectLib : ChessLib :=
  { parseSan := fun _ _ => none,
    applyMove := fun f _ => f }

/-- A concrete engine that answers every query: a one-line list for any
`multipv` query, a single info dictionary for the plain query. -/
def testEngine : Engine :=
  { start := .ok (),
    analyse := fun _ q =>
      match q with
      | some _ => .ok (.list [⟨["e2e4"], 30⟩])
      | none => .ok (.single ⟨["e7e5"], -20⟩) }

/-- A concrete engine whose process dies at launch. -/
def testTermEngine : Engine :=
  { start := .error .engineTerminated,
    analyse := fun _ _ => .error .engineTerminated }

/-- A concrete engine that answers the `multipv` query but fails on the
plain (second) query. -/
def testSecondFailEngine : Engine :=
  { start := .ok (),
    analyse := fun _ q =>
      match q with
      | some _ => .ok (.list [⟨["e2e4"], 30⟩])
      | none => .error (.generic "engine process died") }

/-- A request event carrying both required parameters. -/
def testEventFull : Event :=
  { fen := some testFen, llm_move_san := some "e4" }

/-- A request event missing `fen` but carrying every other field. -/
def testEventNoFen : Event :=
  { llm_move_san := some "e4", top_n := some 5, multipv := some true }

/-- A request event whose `fen` is present but empty. -/
def testEventEmptyFen : Event :=
  { fen := some "", llm_move_san := some "e4" }

/-- Exhaustive characterisation of `evaluate_llm_move_logic` once the move
has parsed: launch failure, first-analysis failure, extraction failure,
unexpected-format return, second-analysis/score failure (board still
pushed), or the success report. -/
theorem eval_post_parse_cases (lib : ChessLib) (eng : Engine)
    (f s : String) (tn : Int) (mp : Bool) (m : String)
    (hm : lib.parseSan f s = some m) :
    (∃ e, eng.start = .error e ∧
      evaluate_llm_move_logic lib eng f s tn mp =
        (engineErrorReport e (llmColorOf f), [], ⟨f, []⟩))
  ∨ (∃ e, evaluate_llm_move_logic lib eng f s tn mp =
        (engineErrorReport e (llmColorOf f), [(f, some tn)], ⟨f, []⟩))
  ∨ (evaluate_llm_move_logic lib eng f s tn mp =
        ({ error := some "Stockfish analysis returned unexpected result format.",
           llm_color := some (llmColorOf f) }, [(f, some tn)], ⟨f, []⟩))
  ∨ (∃ e, evaluate_llm_move_logic lib eng f s tn mp =
        (engineErrorReport e (llmColorOf f),
         [(f, some tn), (lib.applyMove f m, none)], ⟨f, [m]⟩))
  ∨ (∃ moves best llm_score,
      evaluate_llm_move_logic lib eng f s tn mp =
        ({ stockfish_moves := some moves, stockfish_eval := some best,
           llm_move := some m, post_move_fen := some (lib.applyMove f m),
           llm_eval := some llm_score,
           centipawn_loss := some (if llmColorOf f = "white" then best - llm_score
             else llm_score - best),
           move_quality := some (describe_quality (if llmColorOf f = "white" then best - llm_score
             else llm_score - best)),
           llm_color := some (llmColorOf f), error := none },
         [(f, some tn), (lib.applyMove f m, none)], ⟨f, []⟩)) := by
  cases hs : eng.start with
  | error e =>
    exact Or.inl ⟨e, rfl, by simp [evaluate_llm_move_logic, hm, hs]⟩
  | ok u =>
    refine Or.inr ?_
    cases ha : eng.analyse f (some tn) with
    | error e =>
      exact Or.inl ⟨e, by simp [evaluate_llm_move_logic, hm, hs, ha]⟩
    | ok ar =>
      cases he : extractTop mp tn ar with
      | error e =>
        exact Or.inl ⟨e, by simp [evaluate_llm_move_logic, hm, hs, ha, he]⟩
      | ok o =>
        cases o with
        | none =>
          exact Or.inr (Or.inl (by simp [evaluate_llm_move_logic, hm, hs, ha, he]))
        | some p =>
          obtain ⟨moves, best⟩ := p
          refine Or.inr (Or.inr ?_)
          cases hb : eng.analyse (lib.applyMove f m) none with
          | error e =>
            refine Or.inl ⟨e, ?_⟩
            simp [evaluate_llm_move_logic, hm, hs, ha, he, Board.push, Board.fen, hb]
          | ok lr =>
            cases hc : scoreOfSingle lr with
            | error e =>
              refine Or.inl ⟨e, ?_⟩
              simp [evaluate_llm_move_logic, hm, hs, ha, he, Board.push, Board.fen, hb, hc]
            | ok llm_score =>
              refine Or.inr ⟨moves, best, llm_score, ?_⟩
              simp [evaluate_llm_move_logic, hm, hs, ha, he, Board.push, Board.fen,
                Board.pop, hb, hc]

/-- When the move text does not resolve, the function returns the fixed
illegal-move report, an empty engine-query trace, and the untouched board. -/
theorem eval_parse_none_eq (lib : ChessLib) (eng : Engine)
    (f s : String) (tn : Int) (mp : Bool)
    (h : lib.parseSan f s = none) :
    evaluate_llm_move_logic lib eng f s tn mp =
      ({ llm_move := some s, llm_eval := some 10000, centipawn_loss := some 10000,
         move_quality := some "Illegal", llm_color := some (llmColorOf f),
         error := some "Illegal move format or invalid move." }, [], ⟨f, []⟩) := by
  simp [evaluate_llm_move_logic, h]

/-- After a successful parse, an error-free result is the success report,
with the two-query trace and the board returned to its initial state. -/
theorem eval_success_shape (lib : ChessLib) (eng : Engine)
    (f s : String) (tn : Int) (mp : Bool) (m : String)
    (hm : lib.parseSan f s = some m)
    (hok : (evaluate_llm_move_logic lib eng f s tn mp).1.error = none) :
    ∃ moves best llm_score,
      evaluate_llm_move_logic lib eng f s tn mp =
        ({ stockfish_moves := some moves, stockfish_eval := some best,
           llm_move := some m, post_move_fen := some (lib.applyMove f m),
           llm_eval := some llm_score,
           centipawn_loss := some (if llmColorOf f = "white" then best - llm_score
             else llm_score - best),
           move_quality := some (describe_quality (if llmColorOf f = "white" then best - llm_score
             else llm_score - best)),
           llm_color := some (llmColorOf f), error := none },
         [(f, some tn), (lib.applyMove f m, none)], ⟨f, []⟩) := by
  rcases eval_post_parse_cases lib eng f s tn mp m hm with
      ⟨e, _, hq⟩ | ⟨e, hq⟩ | hq | ⟨e, hq⟩ | ⟨moves, best, llm_score, hq⟩ <;>
    rw [hq] at hok
  · simp [engineErrorReport] at hok
  · simp [engineErrorReport] at hok
  · simp at hok
  · simp [engineErrorReport] at hok
  · exact ⟨moves, best, llm_score, hq⟩

/-- After a successful parse, a result carrying an error message is exactly
the two-field report: only `error` and `llm_color` are populated. -/
theorem eval_error_only_shape (lib : ChessLib) (eng : Engine)
    (f s : String) (tn : Int) (mp : Bool) (m msg : String)
    (hm : lib.parseSan f s = some m)
    (he : (evaluate_llm_move_logic lib eng f s tn mp).1.error = some msg) :
    (evaluate_llm_move_logic lib eng f s tn mp).1 =
      { error := some msg, llm_color := some (llmColorOf f) } := by
  rcases eval_post_parse_cases lib eng f s tn mp m hm with
      ⟨e, _, hq⟩ | ⟨e, hq⟩ | hq | ⟨e, hq⟩ | ⟨moves, best, llm_score, hq⟩ <;>
    rw [hq] at he ⊢ <;>
    simp_all [engineErrorReport]

/-- C1: for every successful evaluation (move parsed, both oracle scores
obtained, hence no `error` key), the returned `centipawn_loss` equals
`stockfish_best_score - llm_score` when the side to move in the input FEN
is white, and `llm_score - stockfish_best_score` when it is black. -/
theorem centipawn_loss_sign_correction (lib : ChessLib) (eng : Engine)
    (f s : String) (tn : Int) (mp : Bool)
    (hok : (evaluate_llm_move_logic lib eng f s tn mp).1.error = none) :
    ∃ best llm_score,
      (evaluate_llm_move_logic lib eng f s tn mp).1.stockfish_eval = some best ∧
      (evaluate_llm_move_logic lib eng f s tn mp).1.llm_eval = some llm_score ∧
      (evaluate_llm_move_logic lib eng f s tn mp).1.centipawn_loss =
        some (if llmColorOf f = "white" then best - llm_score else llm_score - best) := by
  cases hp : lib.parseSan f s with
  | none =>
    rw [eval_parse_none_eq lib eng f s tn mp hp] at hok
    simp at hok
  | some m =>
    obtain ⟨moves, best, llm_score, hq⟩ := eval_success_shape lib eng f s tn mp m hp hok
    rw [hq]
    exact ⟨best, llm_score, rfl, rfl, rfl⟩

/-- Witness for C1 at a concrete white-to-move input. -/
theorem centipawn_loss_sign_correction_witness :
    (evaluate_llm_move_logic testLib testEngine testFen "e4" 3 false).1.error = none ∧
    ∃ best llm_score,
      (evaluate_llm_move_logic testLib testEngine testFen "e4" 3 false).1.stockfish_eval = some best ∧
      (evaluate_llm_move_logic testLib testEngine testFen "e4" 3 false).1.llm_eval = some llm_score ∧
      (evaluate_llm_move_logic testLib testEngine testFen "e4" 3 false).1.centipawn_loss =
        some (if llmColorOf testFen = "white" then best - llm_score else llm_score - best) :=
  ⟨by decide, centipawn_loss_sign_correction testLib testEngine testFen "e4" 3 false (by decide)⟩

/-- C3: a move text that fails to resolve yields exactly the fixed
illegal-move report — `llm_move` is the unparsed input text, `llm_eval`
and `centipawn_loss` are 10000, `move_quality` is "Illegal", `error` is
the fixed message, `llm_color` is the side to move — with an empty engine
trace (no engine call is made; the result is also independent of `eng`,
which is universally quantified). -/
theorem illegal_move_fixed_report (lib : ChessLib) (eng : Engine)
    (f s : String) (tn : Int) (mp : Bool)
    (h : lib.parseSan f s = none) :
    evaluate_llm_move_logic lib eng f s tn mp =
      ({ llm_move := some s, llm_eval := some 10000, centipawn_loss := some 10000,
         move_quality := some "Illegal", llm_color := some (llmColorOf f),
         error := some "Illegal move format or invalid move." }, [], ⟨f, []⟩) :=
  eval_parse_none_eq lib eng f s tn mp h

/-- Witness for C3 at a concrete input. -/
theorem illegal_move_fixed_report_witness :
    testRejectLib.parseSan testFen "Z9" = none ∧
    evaluate_llm_move_logic testRejectLib testEngine testFen "Z9" 3 false =
      ({ llm_move := some "Z9", llm_eval := some 10000, centipawn_loss := some 10000,
         move_quality := some "Illegal", llm_color := some "white",
         error := some "Illegal move format or invalid move." }, [], ⟨testFen, []⟩) :=
  ⟨rfl, (illegal_move_fixed_report testRejectLib testEngine testFen "Z9" 3 false rfl).trans
    (by decide)⟩

/-- C5: for every evaluation in which an engine-interaction failure occurs
(after the move parsed), the returned report contains only `error` and
`llm_color`: every other field is absent (`none`), and when the failure is
the engine having terminated at launch the message identifies that
specifically.  No exception propagates: the embedded function is total. -/
theorem engine_failure_error_only (lib : ChessLib) (eng : Engine)
    (f s : String) (tn : Int) (mp : Bool) (m msg : String)
    (hm : lib.parseSan f s = some m)
    (he : (evaluate_llm_move_logic lib eng f s tn mp).1.error = some msg) :
    (evaluate_llm_move_logic lib eng f s tn mp).1 =
      { error := some msg, llm_color := some (llmColorOf f) } ∧
    (eng.start = .error .engineTerminated →
      msg = "Stockfish engine terminated unexpectedly. Check path and permissions.") := by
  refine ⟨eval_error_only_shape lib eng f s tn mp m msg hm he, ?_⟩
  intro ht
  have hev : evaluate_llm_move_logic lib eng f s tn mp =
      (engineErrorReport .engineTerminated (llmColorOf f), [], ⟨f, []⟩) := by
    simp [evaluate_llm_move_logic, hm, ht]
  rw [hev] at he
  simp [engineErrorReport, pyErrMessage] at he
  exact he.symm

/-- Witness for C5: a concrete engine that dies at launch. -/
theorem engine_failure_error_only_witness :
    testLib.parseSan testFen "e4" = some "e2e4" ∧
    (evaluate_llm_move_logic testLib testTermEngine testFen "e4" 3 false).1.error =
      some "Stockfish engine terminated unexpectedly. Check path and permissions." ∧
    (evaluate_llm_move_logic testLib testTermEngine testFen "e4" 3 false).1 =
      { error := some "Stockfish engine terminated unexpectedly. Check path and permissions.",
        llm_color := some "white" } :=
  ⟨rfl, by decide,
    ((engine_failure_error_only testLib testTermEngine testFen "e4" 3 false "e2e4"
        "Stockfish engine terminated unexpectedly. Check path and permissions."
        rfl (by decide)).1).trans (by decide)⟩

/-- C9: in every successful report, `post_move_fen` equals the FEN obtained
by applying the resolved move to the input position; the right-hand side
mentions only the chess library, not the oracle, and the engine is
universally quantified, so the value does not depend on the oracle's
responses. -/
theorem post_move_fen_is_applied_move (lib : ChessLib) (eng : Engine)
    (f s : String) (tn : Int) (mp : Bool) (m : String)
    (hm : lib.parseSan f s = some m)
    (hok : (evaluate_llm_move_logic lib eng f s tn mp).1.error = none) :
    (evaluate_llm_move_logic lib eng f s tn mp).1.post_move_fen =
      some (lib.applyMove f m) := by
  obtain ⟨moves, best, llm_score, hq⟩ := eval_success_shape lib eng f s tn mp m hm hok
  rw [hq]

/-- Witness for C9 at a concrete input. -/
theorem post_move_fen_is_applied_move_witness :
    testLib.parseSan testFen "e4" = some "e2e4" ∧
    (evaluate_llm_move_logic testLib testEngine testFen "e4" 3 false).1.error = none ∧
    (evaluate_llm_move_logic testLib testEngine testFen "e4" 3 false).1.post_move_fen =
      some "8/8 w - - 0 1/e2e4" :=
  ⟨rfl, by decide,
    (post_move_fen_is_applied_move testLib testEngine testFen "e4" 3 false "e2e4"
      rfl (by decide)).trans (by decide)⟩

/-- C8 (amended): in every evaluation that completes successfully, the
working board is reverted to its pre-move state (the initial board) after
the second analysis, and exactly two oracle queries were made. -/
theorem board_reverted_on_success (lib : ChessLib) (eng : Engine)
    (f s : String) (tn : Int) (mp : Bool)
    (hok : (evaluate_llm_move_logic lib eng f s tn mp).1.error = none) :
    (evaluate_llm_move_logic lib eng f s tn mp).2.2 = (⟨f, []⟩ : Board) ∧
    ((evaluate_llm_move_logic lib eng f s tn mp).2.1).length = 2 := by
  cases hp : lib.parseSan f s with
  | none =>
    rw [eval_parse_none_eq lib eng f s tn mp hp] at hok
    simp at hok
  | some m =>
    obtain ⟨moves, best, llm_score, hq⟩ := eval_success_shape lib eng f s tn mp m hp hok
    rw [hq]
    exact ⟨rfl, rfl⟩

/-- Witness for C8 (amended) at a concrete successful evaluation. -/
theorem board_reverted_on_success_witness :
    (evaluate_llm_move_logic testLib testEngine testFen "e4" 3 false).1.error = none ∧
    ((evaluate_llm_move_logic testLib testEngine testFen "e4" 3 false).2.2 =
      (⟨testFen, []⟩ : Board) ∧
     ((evaluate_llm_move_logic testLib testEngine testFen "e4" 3 false).2.1).length = 2) :=
  ⟨by decide, board_reverted_on_success testLib testEngine testFen "e4" 3 false (by decide)⟩

/-- Counterexample to C8 as stated: with an engine whose second (plain)
query fails, the oracle is queried twice but the working board still holds
the applied move when the evaluation returns — `board.pop()` is only
reached when the second analysis and its score extraction succeed. -/
theorem board_not_reverted_counterexample :
    ((evaluate_llm_move_logic testLib testSecondFailEngine testFen "e4" 3 false).2.1).length = 2 ∧
    (evaluate_llm_move_logic testLib testSecondFailEngine testFen "e4" 3 false).2.2.stack =
      ["e2e4"] ∧
    (evaluate_llm_move_logic testLib testSecondFailEngine testFen "e4" 3 false).2.2 ≠
      (⟨testFen, []⟩ : Board) := by
  decide

/-- C4 (amended): once the move parses and the engine launches, the first
oracle query is always on the original position and always requests `top_n`
ranked lines (the `multipv` argument passed to the oracle is `top_n`),
whatever the `multipv` flag is. -/
theorem first_query_requests_top_n (lib : ChessLib) (eng : Engine)
    (f s : String) (tn : Int) (mp : Bool) (m : String)
    (hm : lib.parseSan f s = some m) (hs : eng.start = .ok ()) :
    ((evaluate_llm_move_logic lib eng f s tn mp).2.1).head? = some (f, some tn) := by
  rcases eval_post_parse_cases lib eng f s tn mp m hm with
      ⟨e, hse, hq⟩ | ⟨e, hq⟩ | hq | ⟨e, hq⟩ | ⟨moves, best, llm_score, hq⟩
  · rw [hs] at hse
    exact absurd hse (by simp)
  · rw [hq]; rfl
  · rw [hq]; rfl
  · rw [hq]; rfl
  · rw [hq]; rfl

/-- Witness for C4 (amended) at a concrete input with `multipv` true. -/
theorem first_query_requests_top_n_witness :
    testLib.parseSan testFen "e4" = some "e2e4" ∧
    testEngine.start = .ok () ∧
    ((evaluate_llm_move_logic testLib testEngine testFen "e4" 5 true).2.1).head? =
      some (testFen, some 5) :=
  ⟨rfl, rfl,
    first_query_requests_top_n testLib testEngine testFen "e4" 5 true "e2e4" rfl rfl⟩

/-- Counterexample to C4 as stated: with `multipv` false and `top_n` = 3,
the claim says the first query requests a single line, but the code passes
`multipv=top_n` unconditionally: the first query requests 3 lines (it is
neither a plain single-line query nor a `multipv=1` query). -/
theorem first_query_not_single_line_counterexample :
    ((evaluate_llm_move_logic testLib testEngine testFen "e4" 3 false).2.1).head? =
      some (testFen, some 3) ∧
    ((evaluate_llm_move_logic testLib testEngine testFen "e4" 3 false).2.1).head? ≠
      some (testFen, some 1) ∧
    ((evaluate_llm_move_logic testLib testEngine testFen "e4" 3 false).2.1).head? ≠
      some (testFen, none) := by
  decide

/-- C6: a request event missing `fen` or missing `llm_move_san` yields the
fixed 400 response with the verbatim error body, whatever the other fields
are (the event's `top_n` and `multipv` are arbitrary), and no evaluation is
performed: the response is independent of the universally quantified chess
library and engine. -/
theorem missing_params_400 (lib : ChessLib) (eng : Engine) (ev : Event)
    (h : ev.fen = none ∨ ev.llm_move_san = none) :
    main_handler lib eng ev =
      { statusCode := 400, body := { error := some missingParamsMessage } } := by
  rcases h with h | h <;> simp [main_handler, h, pyTruthy]

/-- Witness for C6: an event missing `fen` but carrying every other field. -/
theorem missing_params_400_witness :
    testEventNoFen.fen = none ∧
    main_handler testLib testEngine testEventNoFen =
      { statusCode := 400, body := { error := some missingParamsMessage } } :=
  ⟨rfl, missing_params_400 testLib testEngine testEventNoFen (Or.inl rfl)⟩

/-- C10: an event whose `fen` or `llm_move_san` is present but empty is
treated exactly like a missing-parameter request — same 400 response, no
evaluation (the library and engine are universally quantified) — because
the check tests Python truthiness rather than key membership. -/
theorem empty_params_400 (lib : ChessLib) (eng : Engine) (ev : Event)
    (h : ev.fen = some "" ∨ ev.llm_move_san = some "") :
    main_handler lib eng ev =
      { statusCode := 400, body := { error := some missingParamsMessage } } := by
  rcases h with h | h <;> simp [main_handler, h, pyTruthy]

/-- Witness for C10: an event with an empty `fen`. -/
theorem empty_params_400_witness :
    testEventEmptyFen.fen = some "" ∧
    main_handler testLib testEngine testEventEmptyFen =
      { statusCode := 400, body := { error := some missingParamsMessage } } :=
  ⟨rfl, empty_params_400 testLib testEngine testEventEmptyFen (Or.inl rfl)⟩

/-- C7: a request that reaches evaluation (both required fields present and
non-empty) is answered with the evaluation report as body, with status 200
iff the report has no `error` key and status 500 iff it has one; in
particular a move that fails to parse surfaces with status 500. -/
theorem status_code_mapping (lib : ChessLib) (eng : Engine) (ev : Event)
    (f s : String)
    (hf : ev.fen = some f) (hfne : f ≠ "")
    (hs : ev.llm_move_san = some s) (hsne : s ≠ "") :
    (main_handler lib eng ev).body =
      (evaluate_llm_move_logic lib eng f s (ev.top_n.getD 3) (ev.multipv.getD false)).1 ∧
    ((main_handler lib eng ev).statusCode = 200 ↔
      (evaluate_llm_move_logic lib eng f s (ev.top_n.getD 3) (ev.multipv.getD false)).1.error
        = none) ∧
    ((main_handler lib eng ev).statusCode = 500 ↔
      ((evaluate_llm_move_logic lib eng f s (ev.top_n.getD 3) (ev.multipv.getD false)).1.error).isSome) ∧
    (lib.parseSan f s = none → (main_handler lib eng ev).statusCode = 500) := by
  cases herr : (evaluate_llm_move_logic lib eng f s (ev.top_n.getD 3) (ev.multipv.getD false)).1.error with
  | none =>
    have hm : main_handler lib eng ev =
        { statusCode := 200,
          body := (evaluate_llm_move_logic lib eng f s (ev.top_n.getD 3) (ev.multipv.getD false)).1 } := by
      simp [main_handler, hf, hs, pyTruthy, hfne, hsne, herr]
    rw [hm]
    refine ⟨rfl, by simp [herr], by simp [herr], ?_⟩
    intro hp
    rw [eval_parse_none_eq lib eng f s (ev.top_n.getD 3) (ev.multipv.getD false) hp] at herr
    simp at herr
  | some msg =>
    have hm : main_handler lib eng ev =
        { statusCode := 500,
          body := (evaluate_llm_move_logic lib eng f s (ev.top_n.getD 3) (ev.multipv.getD false)).1 } := by
      simp [main_handler, hf, hs, pyTruthy, hfne, hsne, herr]
    rw [hm]
    exact ⟨rfl, by simp [herr], by simp [herr], fun _ => rfl⟩

/-- Witness for C7: the concrete full request evaluates successfully and is
answered with status 200. -/
theorem status_code_mapping_witness :
    testEventFull.fen = some testFen ∧ testFen ≠ "" ∧
    testEventFull.llm_move_san = some "e4" ∧ "e4" ≠ "" ∧
    (main_handler testLib testEngine testEventFull).statusCode = 200 :=
  ⟨rfl, by decide, rfl, by decide,
    ((status_code_mapping testLib testEngine testEventFull testFen "e4"
        rfl (by decide) rfl (by decide)).2.1).mpr (by decide)⟩

/-- C2: `describe_quality` is a total deterministic function on all
integers (totality and determinism are inherent in the Lean definition;
negative losses are classified, not clamped): the label is "Excellent" iff
loss < 20, "Good" iff 20 ≤ loss < 50, "Inaccuracy" iff 50 ≤ loss < 100,
"Mistake" iff 100 ≤ loss < 300, "Blunder" iff loss ≥ 300, and the boundary
inputs 19, 20, 49, 50, 99, 100, 299, 300 map to Excellent, Good, Good,
Inaccuracy, Inaccuracy, Mistake, Mistake, Blunder. -/
theorem describe_quality_ranges_and_boundaries :
    (∀ loss : Int,
      ((describe_quality loss = "Excellent") ↔ loss < 20) ∧
      ((describe_quality loss = "Good") ↔ (20 ≤ loss ∧ loss < 50)) ∧
      ((describe_quality loss = "Inaccuracy") ↔ (50 ≤ loss ∧ loss < 100)) ∧
      ((describe_quality loss = "Mistake") ↔ (100 ≤ loss ∧ loss < 300)) ∧
      ((describe_quality loss = "Blunder") ↔ 300 ≤ loss)) ∧
    (describe_quality 19 = "Excellent" ∧ describe_quality 20 = "Good" ∧
     describe_quality 49 = "Good" ∧ describe_quality 50 = "Inaccuracy" ∧
     describe_quality 99 = "Inaccuracy" ∧ describe_quality 100 = "Mistake" ∧
     describe_quality 299 = "Mistake" ∧ describe_quality 300 = "Blunder") := by
  constructor
  · intro loss
    unfold describe_quality
    split_ifs with h1 h2 h3 h4 <;> refine ⟨?_, ?_, ?_, ?_, ?_⟩ <;>
      constructor <;> intro h <;>
        first
          | rfl
          | omega
          | (exact absurd h (by decide))
  · refine ⟨by decide, by decide, by decide, by decide, by decide, by decide, by decide, by decide⟩
